import Mathlib

/-!
# Verification of the trading-bot Strategy/Risk/Orchestration core

This file gives a shallow embedding, over `ℚ`, of the core logic of the
trading bot (risk manager, indicator pipeline, strategy signals, signal
combiner, multi-symbol orchestration engine, and account manager) and proves
or refutes the specification claims about it.

Python floats are modelled by rationals; the two places where IEEE special
values actually matter for behaviour (the `gain/loss` division inside RSI and
the `NaN` produced by `diff`/`shift` at the first row) are modelled
explicitly with `Option` (`none` = NaN) following IEEE semantics
(`x/0 = +inf` for `x > 0`, `0/0 = NaN`).
-/

namespace TradingBot

/-! ## Python-dict helpers

`open_positions`/`active_positions` are Python dicts keyed by the symbol.
They are modelled as association lists with dict semantics: assignment
replaces the entry when the key is present and appends otherwise, `del`
removes the key's entry. -/

/-- Keys of an association list. -/
def keysOf {β : Type} (l : List (String × β)) : List String :=
  l.map Prod.fst

/-- Python `d[k] = v`: replace in place if the key exists, else append. -/
def dictInsert {β : Type} (k : String) (v : β) :
    List (String × β) → List (String × β)
  | [] => [(k, v)]
  | (k₀, v₀) :: t =>
      if k₀ = k then (k, v) :: t else (k₀, v₀) :: dictInsert k v t

/-- Python `del d[k]` / `d.pop(k)` (projected to the entry list). -/
def dictRemove {β : Type} (k : String) (l : List (String × β)) :
    List (String × β) :=
  l.filter (fun p => p.1 ≠ k)

/-- Python `d.get(k)`: first value stored under the key. -/
def dictGet {β : Type} (k : String) : List (String × β) → Option β
  | [] => none
  | (k₀, v₀) :: t => if k₀ = k then some v₀ else dictGet k t

theorem keysOf_dictInsert_eq {β : Type} (k : String) (v : β)
    (l : List (String × β)) :
    keysOf (dictInsert k v l) =
      if k ∈ keysOf l then keysOf l else keysOf l ++ [k] := by
  induction l with
  | nil => simp [dictInsert, keysOf]
  | cons p t ih =>
      obtain ⟨k₀, v₀⟩ := p
      by_cases hk : k₀ = k
      · subst hk
        simp [dictInsert, keysOf]
      · have hne : ¬ k = k₀ := fun h => hk h.symm
        have ih2 : List.map Prod.fst (dictInsert k v t) =
            if k ∈ List.map Prod.fst t then List.map Prod.fst t
            else List.map Prod.fst t ++ [k] := ih
        by_cases hmem : k ∈ List.map Prod.fst t
        · simp [dictInsert, hk, keysOf, hmem, hne, ih2]
        · simp [dictInsert, hk, keysOf, hmem, hne, ih2]

theorem keysOf_dictInsert {β : Type} (k : String) (v : β)
    (l : List (String × β)) (h : (keysOf l).Nodup) :
    (keysOf (dictInsert k v l)).Nodup := by
  rw [keysOf_dictInsert_eq]
  by_cases hmem : k ∈ keysOf l
  · simpa [hmem] using h
  · simp only [hmem, if_false]
    exact List.Nodup.append h (List.nodup_singleton k)
      (by simpa [List.disjoint_singleton] using hmem)

theorem keysOf_dictRemove {β : Type} (k : String) (l : List (String × β))
    (h : (keysOf l).Nodup) : (keysOf (dictRemove k l)).Nodup :=
  h.sublist ((List.filter_sublist l).map Prod.fst)

/-! ## Risk manager (`apps/executor/risk_manager.py`)

`RiskConfig` is the dataclass of configuration parameters;
`ProfessionalRiskManager.calculate_safe_size` combines the daily-drawdown
circuit breaker, fractional Kelly, the hard per-trade cap, stop-distance
sizing and the minimum-notional floor.  The manager state that the function
reads is `self.cfg` and `self.current_daily_loss`; both are passed
explicitly here. -/

/-- The `RiskConfig` dataclass (defaults as in the source). -/
structure RiskConfig where
  max_account_risk_per_trade : ℚ := 1/50
  max_daily_drawdown : ℚ := 1/20
  max_leverage : ℤ := 5
  min_notional_usdt : ℚ := 6
  kelly_fraction : ℚ := 1/4
  default_atr_period : ℕ := 14
  default_atr_multiplier : ℚ := 7/2
  max_volatility_threshold : ℚ := 1/20
deriving Repr

/-- Embedding of `ProfessionalRiskManager.calculate_safe_size`, translated line by line.
`current_daily_loss` is the manager's `self.current_daily_loss` field. -/
def calculate_safe_size (cfg : RiskConfig) (current_daily_loss : ℚ)
    (balance entry_price stop_loss_price win_rate reward_ratio : ℚ) : ℚ :=
  -- 1. Circuit Breaker: Daily Drawdown
  let max_daily_loss := balance * cfg.max_daily_drawdown
  if current_daily_loss ≤ -max_daily_loss then 0
  else
    -- 2. Kelly Calculation (Fractional)
    if reward_ratio = 0 then 0
    else
      let kelly_pct := win_rate - (1 - win_rate) / reward_ratio
      let kelly_pct := max 0 kelly_pct * cfg.kelly_fraction
      -- 3. Hard Risk Cap
      let position_size_equity_pct := min kelly_pct cfg.max_account_risk_per_trade
      -- 4. Size from risk amount / distance to stop
      let risk_per_share := |entry_price - stop_loss_price|
      if risk_per_share = 0 then 0
      else
        let risk_amount_usdt := balance * position_size_equity_pct
        let quantity_asset := risk_amount_usdt / risk_per_share
        -- 5. Notional value validation
        let notional_value := quantity_asset * entry_price
        if notional_value < cfg.min_notional_usdt then 0
        else quantity_asset

/-- The 5-step reference definition of safe sizing, written from the spec's
words (§4.4 / claim C1), to be compared against `calculate_safe_size`. -/
def refCalculateSafeSize (cfg : RiskConfig) (current_daily_loss : ℚ)
    (balance entry stop win_rate reward_ratio : ℚ) : ℚ :=
  -- circuit breaker first, short-circuits everything else
  if current_daily_loss ≤ -(balance * cfg.max_daily_drawdown) then 0
  else if reward_ratio = 0 then 0
  else
    let k := max 0 (win_rate - (1 - win_rate) / reward_ratio) * cfg.kelly_fraction
    let risk_pct := min k cfg.max_account_risk_per_trade
    let distance := |entry - stop|
    if distance = 0 then 0
    else
      let size := balance * risk_pct / distance
      if size * entry < cfg.min_notional_usdt then 0 else size

/-- The fractional-Kelly percentage computed by `calculate_safe_size`
before the hard cap is applied (risk_manager.py lines 122-123). -/
def kellyPreCap (kelly_fraction win_rate reward_ratio : ℚ) : ℚ :=
  max 0 (win_rate - (1 - win_rate) / reward_ratio) * kelly_fraction

/-! ## Bars and the ATR pipeline

One OHLCV row of the candle DataFrame. -/

structure Bar where
  timestamp : ℤ := 0
  open_price : ℚ := 0
  high : ℚ
  low : ℚ
  close : ℚ
  volume : ℚ := 0
deriving Repr

/-- Collects optional values (a traversal): `some` of all values iff no entry is
`none`.  Models NaN propagation through a rolling window. -/
def optionAll : List (Option ℚ) → Option (List ℚ)
  | [] => some []
  | none :: _ => none
  | some x :: t => (optionAll t).map (x :: ·)

/-- Embedding of `series.rolling(window=p).mean().iloc[-1]` on a series that may hold
NaNs (`none`): NaN while fewer than `p` rows exist or when any value in the
final window is NaN. -/
def rollingMeanLastNaN (p : ℕ) (xs : List (Option ℚ)) : Option ℚ :=
  if p = 0 then none
  else if xs.length < p then none
  else match optionAll (xs.drop (xs.length - p)) with
    | some vs => some (vs.sum / p)
    | none => none

/-- Tail of the true-range series, given the previous bar. -/
def trAux (prev : Bar) : List Bar → List (Option ℚ)
  | [] => []
  | b :: t =>
      some (max (b.high - b.low) (max |b.high - prev.close| |b.low - prev.close|))
        :: trAux b t

/-- The `tr` column of risk_manager.py lines 245-251: true range per row;
the first row is NaN because `close.shift(1)` is NaN there. -/
def trueRanges : List Bar → List (Option ℚ)
  | [] => []
  | b :: t => none :: trAux b t

/-- Embedding of `df['tr'].rolling(window=atr_period).mean().iloc[-1]`. -/
def atrLast (atr_period : ℕ) (df : List Bar) : Option ℚ :=
  rollingMeanLastNaN atr_period (trueRanges df)

/-- Embedding of `ProfessionalRiskManager.calculate_dynamic_stop_loss`.  `atr_period` and
`multiplier` are the values after the `x or self.cfg.default` coalescing in
the source; `side` is the raw string argument (any string other than
`"long"` takes the short branch, as in the source). -/
def calculate_dynamic_stop_loss (df : List Bar) (current_price : ℚ)
    (atr_period : ℕ) (multiplier : ℚ) (side : String) : ℚ :=
  -- Fallback if insufficient data
  if df.length < atr_period then
    current_price * (if side = "long" then 95/100 else 105/100)
  else
    match atrLast atr_period df with
    | none =>  -- pd.isna(atr)
        current_price * (if side = "long" then 95/100 else 105/100)
    | some atr =>
        if atr ≤ 0 then
          current_price * (if side = "long" then 95/100 else 105/100)
        else if side = "long" then current_price - atr * multiplier
        else current_price + atr * multiplier

/-- Embedding of `ProfessionalRiskManager.validate_volatility`: single-bar flash
volatility gate.  `threshold_atr_pct = none` (and, through Python's `or`,
`some 0`) falls back to the configured threshold.  Defined here to witness
that the multi-symbol engine never invokes it. -/
def validate_volatility (cfg : RiskConfig) (df : List Bar)
    (threshold_atr_pct : Option ℚ) : Bool :=
  match df.getLast? with
  | none => false
  | some last =>
      let threshold :=
        match threshold_atr_pct with
        | some t => if t = 0 then cfg.max_volatility_threshold else t
        | none => cfg.max_volatility_threshold
      let tr_pct := (last.high - last.low) / last.close
      ¬ tr_pct > threshold

/-- Embedding of `PortfolioRiskConfig` (risk_manager.py lines 31-53). -/
structure PortfolioRiskConfig extends RiskConfig where
  max_total_exposure : ℚ := 1/10
  max_correlated_positions : ℕ := 2
  correlation_matrix : List (String × List String) :=
    [("BTC/USDT", ["ETH/USDT"]), ("ETH/USDT", ["BTC/USDT"]), ("SOL/USDT", [])]

/-- Embedding of `PortfolioRiskManager.can_open_position`: exposure and correlation
checks over the tracked `active_positions` dict.  Defined here to witness
that the multi-symbol engine never invokes it. -/
def can_open_position (cfg : PortfolioRiskConfig)
    (active_positions : List (String × ℚ)) (symbol : String)
    (position_size_usd account_balance : ℚ) : Bool × String :=
  let current_exposure := (active_positions.map Prod.snd).sum
  let new_exposure := current_exposure + position_size_usd
  let max_exposure := account_balance * cfg.max_total_exposure
  if new_exposure > max_exposure then (false, "total exposure limit")
  else
    let correlated_symbols := (dictGet symbol cfg.correlation_matrix).getD []
    let correlated_open :=
      (correlated_symbols.filter (fun s => s ∈ keysOf active_positions)).length
    if correlated_open ≥ cfg.max_correlated_positions then
      (false, "correlated positions limit")
    else (true, "OK")

/-! ## Claims C1 and C9 -/

/-- C1: for every configuration, daily loss and all five arguments,
`calculate_safe_size` coincides with the 5-step reference definition from
the spec: circuit breaker first (short-circuiting), then zero reward ratio,
then capped fractional Kelly, zero stop distance, sizing, and the minimum
notional floor. -/
theorem calculate_safe_size_eq_ref (cfg : RiskConfig)
    (current_daily_loss balance entry stop win_rate reward_ratio : ℚ) :
    calculate_safe_size cfg current_daily_loss balance entry stop win_rate
        reward_ratio =
      refCalculateSafeSize cfg current_daily_loss balance entry stop win_rate
        reward_ratio := rfl

/-- C9 counterexample: with `kelly_fraction = -1` (the claim quantifies over
every kelly_fraction), `win_rate 0 ≤ win_rate 1` in `[0,1]` and
`reward_ratio = 1 > 0`, the pre-cap Kelly value decreases from `0` to `-1`,
so the claimed monotonicity fails. -/
theorem kellyPreCap_mono_counterexample :
    (0:ℚ) ≤ 1 ∧ (0:ℚ) < 1 ∧ (0:ℚ) ≤ 0 ∧ (1:ℚ) ≤ 1 ∧
      ¬ kellyPreCap (-1) 0 1 ≤ kellyPreCap (-1) 1 1 := by
  refine ⟨by norm_num, by norm_num, le_refl 0, le_refl 1, ?_⟩
  norm_num [kellyPreCap]

/-- C9 (amended): for a non-negative `kelly_fraction`, positive
`reward_ratio` and win rates `w1 ≤ w2` in `[0,1]`, the pre-cap fractional
Kelly value computed by `calculate_safe_size` is monotone: its value at `w1`
is at most its value at `w2`. -/
theorem kellyPreCap_win_rate_mono (kf w1 w2 r : ℚ) (hkf : 0 ≤ kf)
    (hr : 0 < r) (hw : w1 ≤ w2) (h0 : 0 ≤ w1) (h1 : w2 ≤ 1) :
    kellyPreCap kf w1 r ≤ kellyPreCap kf w2 r := by
  unfold kellyPreCap
  refine mul_le_mul_of_nonneg_right (max_le_max (le_refl 0) ?_) hkf
  have h2 : (1 - w2) / r ≤ (1 - w1) / r :=
    (div_le_div_right hr).mpr (by linarith)
  linarith

/-- C9 witness: the amended monotonicity at `kelly_fraction = 1/4`,
`win rates 1/2 ≤ 3/5`, `reward_ratio = 2`. -/
theorem kellyPreCap_win_rate_mono_witness :
    (0:ℚ) ≤ 1/4 ∧ (0:ℚ) < 2 ∧ (1/2:ℚ) ≤ 3/5 ∧ (0:ℚ) ≤ 1/2 ∧ (3/5:ℚ) ≤ 1 ∧
      kellyPreCap (1/4) (1/2) 2 ≤ kellyPreCap (1/4) (3/5) 2 :=
  ⟨by norm_num, by norm_num, by norm_num, by norm_num, by norm_num,
    kellyPreCap_win_rate_mono (1/4) (1/2) (3/5) 2 (by norm_num) (by norm_num)
      (by norm_num) (by norm_num) (by norm_num)⟩

theorem trAux_length (prev : Bar) (l : List Bar) :
    (trAux prev l).length = l.length := by
  induction l generalizing prev with
  | nil => rfl
  | cons b t ih => simp [trAux, ih]

theorem trueRanges_length (df : List Bar) :
    (trueRanges df).length = df.length := by
  cases df with
  | nil => rfl
  | cons b t => simp [trueRanges, trAux_length]

theorem atrLast_some_len {p : ℕ} {df : List Bar} {a : ℚ}
    (h : atrLast p df = some a) : ¬ df.length < p := by
  unfold atrLast rollingMeanLastNaN at h
  by_cases h0 : p = 0
  · simp [h0] at h
  · rw [if_neg h0] at h
    by_cases h1 : (trueRanges df).length < p
    · rw [if_pos h1] at h
      exact absurd h (by simp)
    · rw [trueRanges_length] at h1
      exact h1

/-- C8: for a positive current price and positive multiplier, the dynamic
stop loss equals `price - ATR*multiplier` (long) / `price + ATR*multiplier`
(short) when the ATR is defined and positive; it equals the fixed 5%
fallback (`0.95*price` long, `1.05*price` short) when too few bars exist or
the ATR is NaN or non-positive; and in every case the result is strictly on
the loss side of the current price for the given side. -/
theorem calculate_dynamic_stop_loss_spec (df : List Bar) (price : ℚ)
    (p : ℕ) (m : ℚ) (side : String) (hprice : 0 < price) (hm : 0 < m) :
    (∀ a, atrLast p df = some a → 0 < a →
        calculate_dynamic_stop_loss df price p m side =
          if side = "long" then price - a * m else price + a * m) ∧
    ((atrLast p df = none ∨ ∃ a, atrLast p df = some a ∧ a ≤ 0) →
        calculate_dynamic_stop_loss df price p m side =
          price * (if side = "long" then 95/100 else 105/100)) ∧
    (side = "long" → calculate_dynamic_stop_loss df price p m side < price) ∧
    (side = "short" → price < calculate_dynamic_stop_loss df price p m side) := by
  have hA : ∀ a, atrLast p df = some a → 0 < a →
      calculate_dynamic_stop_loss df price p m side =
        if side = "long" then price - a * m else price + a * m := by
    intro a ha hapos
    have h1 := atrLast_some_len ha
    simp [calculate_dynamic_stop_loss, h1, ha, not_le.mpr hapos]
  have hB : (atrLast p df = none ∨ ∃ a, atrLast p df = some a ∧ a ≤ 0) →
      calculate_dynamic_stop_loss df price p m side =
        price * (if side = "long" then 95/100 else 105/100) := by
    rintro (ha | ⟨a, ha, hle⟩)
    · by_cases h1 : df.length < p
      · simp [calculate_dynamic_stop_loss, h1]
      · simp [calculate_dynamic_stop_loss, h1, ha]
    · have h1 := atrLast_some_len ha
      simp [calculate_dynamic_stop_loss, h1, ha, hle]
  refine ⟨hA, hB, ?_, ?_⟩
  · intro hs
    cases ha : atrLast p df with
    | none =>
        rw [hB (Or.inl ha), hs]
        simp only [eq_self_iff_true, if_true]
        linarith
    | some a =>
        by_cases hle : a ≤ 0
        · rw [hB (Or.inr ⟨a, ha, hle⟩), hs]
          simp only [eq_self_iff_true, if_true]
          linarith
        · rw [hA a ha (not_le.mp hle), hs]
          simp only [eq_self_iff_true, if_true]
          have := mul_pos (not_le.mp hle) hm
          linarith
  · intro hs
    have hne : side ≠ "long" := by rw [hs]; decide
    cases ha : atrLast p df with
    | none =>
        rw [hB (Or.inl ha)]
        simp only [if_neg hne]
        linarith
    | some a =>
        by_cases hle : a ≤ 0
        · rw [hB (Or.inr ⟨a, ha, hle⟩)]
          simp only [if_neg hne]
          linarith
        · rw [hA a ha (not_le.mp hle)]
          simp only [if_neg hne]
          have := mul_pos (not_le.mp hle) hm
          linarith

/-- Three concrete bars with a defined positive ATR, for the C8 witness. -/
def stopLossWitnessBars : List Bar :=
  [{ high := 10, low := 8, close := 9 },
   { high := 11, low := 9, close := 10 },
   { high := 12, low := 10, close := 11 }]

/-- C8 witness: on the three concrete bars, ATR(2) = 2, and the long stop
at price 100 with multiplier 1 is 98, strictly below the price. -/
theorem calculate_dynamic_stop_loss_witness :
    (0:ℚ) < 100 ∧ (0:ℚ) < 1 ∧
      calculate_dynamic_stop_loss stopLossWitnessBars 100 2 1 "long" = 98 ∧
      calculate_dynamic_stop_loss stopLossWitnessBars 100 2 1 "long" < 100 := by
  have h := calculate_dynamic_stop_loss_spec stopLossWitnessBars 100 2 1
    "long" (by norm_num) (by norm_num)
  have hatr : atrLast 2 stopLossWitnessBars = some 2 := by
    norm_num [atrLast, rollingMeanLastNaN, trueRanges, trAux, optionAll,
      stopLossWitnessBars]
  refine ⟨by norm_num, by norm_num, ?_, h.2.2.1 rfl⟩
  have h2 := h.1 2 hatr (by norm_num)
  rw [h2]
  norm_num

/-! ## RSI (`calculate_rsi`, identical in momentum_strategy.py lines 59-69
and mean_reversion_strategy.py lines 55-65)

`delta = close.diff()` has NaN in row 0; `delta.where(delta > 0, 0)`
replaces that NaN by 0 (`NaN > 0` is false), so the gain/loss series are
all-real, and the rolling means are defined once `period` rows exist.
`rs = gain/loss` follows IEEE float division: `g/0 = +inf` for `g > 0`
(so `rsi = 100 - 100/(1+inf) = 100`) and `0/0 = NaN` (so `rsi` is NaN). -/

/-- Consecutive differences of a close series (`diff()` minus its leading
NaN row). -/
def diffs : List ℚ → List ℚ
  | [] => []
  | [_] => []
  | a :: b :: t => (b - a) :: diffs (b :: t)

/-- The gain series: row 0 is the NaN row coerced to 0 by `where`. -/
def gains (closes : List ℚ) : List ℚ :=
  match closes with
  | [] => []
  | _ :: _ => 0 :: (diffs closes).map (fun d => if 0 < d then d else 0)

/-- The loss series (`-delta.where(delta < 0, 0)`). -/
def losses (closes : List ℚ) : List ℚ :=
  match closes with
  | [] => []
  | _ :: _ => 0 :: (diffs closes).map (fun d => if d < 0 then -d else 0)

/-- Embedding of `series.rolling(window=p).mean().iloc[-1]` on an all-real series:
NaN (`none`) until `p` rows exist. -/
def rollingMeanLast (p : ℕ) (xs : List ℚ) : Option ℚ :=
  if p = 0 then none
  else if xs.length < p then none
  else some ((xs.drop (xs.length - p)).sum / p)

/-- Rolling average gain at the last row. -/
def avgGainLast (p : ℕ) (closes : List ℚ) : Option ℚ :=
  rollingMeanLast p (gains closes)

/-- Rolling average loss at the last row. -/
def avgLossLast (p : ℕ) (closes : List ℚ) : Option ℚ :=
  rollingMeanLast p (losses closes)

/-- Embedding of `calculate_rsi(...).iloc[-1]`: `rs = gain/loss`, `rsi = 100-100/(1+rs)`,
with the IEEE cases of the division spelled out (`none` = NaN). -/
def rsiLast (p : ℕ) (closes : List ℚ) : Option ℚ :=
  match avgGainLast p closes, avgLossLast p closes with
  | some g, some l =>
      if l = 0 then
        -- rs = g/0: +inf when g > 0 (rsi = 100), NaN when g = 0
        if g = 0 then none else some 100
      else some (100 - 100 / (1 + g / l))
  | _, _ => none

theorem diffs_length (closes : List ℚ) :
    (diffs closes).length = closes.length - 1 := by
  induction closes with
  | nil => rfl
  | cons a t ih =>
      cases t with
      | nil => rfl
      | cons b s => simpa [diffs] using ih

theorem gains_length (closes : List ℚ) (h : closes ≠ []) :
    (gains closes).length = closes.length := by
  cases closes with
  | nil => exact absurd rfl h
  | cons a t => simp [gains, diffs_length]

theorem losses_length (closes : List ℚ) (h : closes ≠ []) :
    (losses closes).length = closes.length := by
  cases closes with
  | nil => exact absurd rfl h
  | cons a t => simp [losses, diffs_length]

theorem gains_nonneg (closes : List ℚ) :
    ∀ x ∈ gains closes, 0 ≤ x := by
  cases closes with
  | nil => intro x hx; simp [gains] at hx
  | cons a t =>
      intro x hx
      simp only [gains, List.mem_cons, List.mem_map] at hx
      rcases hx with hx | ⟨d, _, hd⟩
      · simp [hx]
      · subst hd
        by_cases h : 0 < d
        · simp [h]; linarith
        · simp [h]

theorem losses_nonneg (closes : List ℚ) :
    ∀ x ∈ losses closes, 0 ≤ x := by
  cases closes with
  | nil => intro x hx; simp [losses] at hx
  | cons a t =>
      intro x hx
      simp only [losses, List.mem_cons, List.mem_map] at hx
      rcases hx with hx | ⟨d, _, hd⟩
      · simp [hx]
      · subst hd
        by_cases h : d < 0
        · simp [h]; linarith
        · simp [h]

theorem rollingMeanLast_nonneg {p : ℕ} {xs : List ℚ} {v : ℚ}
    (hall : ∀ x ∈ xs, 0 ≤ x) (h : rollingMeanLast p xs = some v) : 0 ≤ v := by
  unfold rollingMeanLast at h
  by_cases h0 : p = 0
  · simp [h0] at h
  · rw [if_neg h0] at h
    by_cases h1 : xs.length < p
    · simp [h1] at h
    · rw [if_neg h1] at h
      have hv : v = (xs.drop (xs.length - p)).sum / p := by
        injection h.symm
      rw [hv]
      apply div_nonneg
      · exact List.sum_nonneg fun x hx =>
          hall x (List.drop_subset _ _ hx)
      · positivity

theorem rollingMeanLast_isSome {p : ℕ} {xs : List ℚ} (h0 : p ≠ 0)
    (hlen : p ≤ xs.length) : ∃ v, rollingMeanLast p xs = some v := by
  refine ⟨(xs.drop (xs.length - p)).sum / p, ?_⟩
  unfold rollingMeanLast
  rw [if_neg h0, if_neg (not_lt.mpr hlen)]

/-- C5 counterexample: a flat series of `rsi_period+1` closes.  Both
rolling averages are 0, so `rs = 0/0` is NaN and the RSI of the last bar is
undefined (`none`), not the claimed 50 (and not a number in `[0,100]`). -/
theorem rsiLast_flat_counterexample :
    2 + 1 ≤ [(1:ℚ), 1, 1].length ∧
      avgGainLast 2 [(1:ℚ), 1, 1] = some 0 ∧
      avgLossLast 2 [(1:ℚ), 1, 1] = some 0 ∧
      rsiLast 2 [(1:ℚ), 1, 1] = none := by
  refine ⟨by norm_num, ?_, ?_, ?_⟩ <;>
    norm_num [rsiLast, avgGainLast, avgLossLast, rollingMeanLast, gains,
      losses, diffs]

/-- C5 (amended): with at least `rsi_period+1` closes the rolling average
gain and loss of the last bar are defined and non-negative; unless both are
zero, the RSI of the last bar is defined and lies in `[0,100]`, and equals
100 when the average loss is zero with positive average gain; when both
averages are zero (flat price) the RSI is NaN/undefined — not 50. -/
theorem rsiLast_bounds (p : ℕ) (closes : List ℚ) (hp : 1 ≤ p)
    (hlen : p + 1 ≤ closes.length) :
    ∃ g l, avgGainLast p closes = some g ∧ avgLossLast p closes = some l ∧
      0 ≤ g ∧ 0 ≤ l ∧
      (¬ (g = 0 ∧ l = 0) →
        ∃ r, rsiLast p closes = some r ∧ 0 ≤ r ∧ r ≤ 100 ∧
          (l = 0 → r = 100)) ∧
      ((g = 0 ∧ l = 0) → rsiLast p closes = none) := by
  have hne : closes ≠ [] := by
    intro h
    rw [h] at hlen
    simp at hlen
  have hp0 : p ≠ 0 := by omega
  have hg' : p ≤ (gains closes).length := by
    rw [gains_length closes hne]; omega
  have hl' : p ≤ (losses closes).length := by
    rw [losses_length closes hne]; omega
  obtain ⟨g, hg⟩ := rollingMeanLast_isSome hp0 hg'
  obtain ⟨l, hl⟩ := rollingMeanLast_isSome hp0 hl'
  have hg0 : 0 ≤ g := rollingMeanLast_nonneg (gains_nonneg closes) hg
  have hl0 : 0 ≤ l := rollingMeanLast_nonneg (losses_nonneg closes) hl
  refine ⟨g, l, hg, hl, hg0, hl0, ?_, ?_⟩
  · intro hnboth
    unfold rsiLast
    rw [show avgGainLast p closes = some g from hg,
        show avgLossLast p closes = some l from hl]
    by_cases hlz : l = 0
    · have hgz : g ≠ 0 := fun h => hnboth ⟨h, hlz⟩
      refine ⟨100, ?_, by norm_num, by norm_num, fun _ => rfl⟩
      show (if l = 0 then if g = 0 then none else some 100
            else some (100 - 100 / (1 + g / l))) = some 100
      rw [if_pos hlz, if_neg hgz]
    · have hlpos : 0 < l := lt_of_le_of_ne hl0 (Ne.symm hlz)
      have hquot : 0 ≤ g / l := div_nonneg hg0 hl0
      have hden : (1:ℚ) ≤ 1 + g / l := by linarith
      have hfrac_pos : 0 < 100 / (1 + g / l) := by positivity
      have hfrac_le : 100 / (1 + g / l) ≤ 100 := by
        calc 100 / (1 + g / l) ≤ 100 / 1 :=
              div_le_div_of_nonneg_left (by norm_num) (by norm_num) hden
          _ = 100 := by norm_num
      refine ⟨100 - 100 / (1 + g / l), ?_, by linarith, by linarith,
        fun h => absurd h hlz⟩
      show (if l = 0 then if g = 0 then none else some 100
            else some (100 - 100 / (1 + g / l))) = some (100 - 100 / (1 + g / l))
      rw [if_neg hlz]
  · rintro ⟨hgz, hlz⟩
    unfold rsiLast
    rw [show avgGainLast p closes = some g from hg,
        show avgLossLast p closes = some l from hl]
    show (if l = 0 then if g = 0 then none else some 100
          else some (100 - 100 / (1 + g / l))) = none
    rw [if_pos hlz, if_pos hgz]

/-- C5 witness: on closes `[1, 2, 2]` with period 2 the average gain is
`1/2`, the average loss is 0, and the amended theorem yields a defined RSI
in `[0,100]` (here 100). -/
theorem rsiLast_bounds_witness :
    1 ≤ 2 ∧ 2 + 1 ≤ [(1:ℚ), 2, 2].length ∧
      rsiLast 2 [(1:ℚ), 2, 2] = some 100 ∧
      ∃ r, rsiLast 2 [(1:ℚ), 2, 2] = some r ∧ 0 ≤ r ∧ r ≤ 100 := by
  have heval : rsiLast 2 [(1:ℚ), 2, 2] = some 100 := by
    norm_num [rsiLast, avgGainLast, avgLossLast, rollingMeanLast, gains,
      losses, diffs]
  refine ⟨by norm_num, by norm_num, heval, ?_⟩
  obtain ⟨g, l, hg, hl, hg0, hl0, hmain, hflat⟩ :=
    rsiLast_bounds 2 [(1:ℚ), 2, 2] (by norm_num) (by norm_num)
  have hgval : g = 1/2 := by
    have : avgGainLast 2 [(1:ℚ), 2, 2] = some (1/2) := by
      norm_num [avgGainLast, rollingMeanLast, gains, diffs]
    rw [this] at hg
    injection hg with h
    exact h.symm
  obtain ⟨r, hr, h0, h100, _⟩ := hmain (by rw [hgval]; norm_num)
  exact ⟨r, hr, h0, h100⟩

/-! ## Signals and the mean-reversion strategy

`base_strategy.py` is imported by every strategy module but is not present
in the repository snapshot, so the `Signal`/`SignalType` data types are
modelled from the spec; their field names follow the keyword arguments the
strategies construct them with. -/

/-- Modelled from the spec: `SignalType` of the missing base_strategy.py —
the signal kind `{Buy, Sell, Hold}` of the §3 data model, as used by every
strategy and the combiner. -/
inductive SignalType
  | buy
  | sell
  | hold
deriving DecidableEq, Repr

/-- Modelled from the spec: the `Signal` record of the missing
base_strategy.py — §3: kind, confidence, reference price, optional stop and
target.  The free-form `metadata` audit dict is not modelled (no claim
refers to it). -/
structure Signal where
  signal_type : SignalType
  confidence : ℚ
  entry_price : ℚ
  stop_loss : Option ℚ := none
  take_profit : Option ℚ := none
deriving DecidableEq, Repr

/-- Embedding of `close.rolling(window=p).std().iloc[-1]` (pandas sample std, ddof=1):
NaN until `p` rows exist and for `p < 2`.  The square root on `ℚ` is passed
as an explicit function parameter (the embedding's stand-in for the float
`sqrt`); the claims proved here depend only on its value at 0. -/
def rollingStdLast (sqrtQ : ℚ → ℚ) (p : ℕ) (xs : List ℚ) : Option ℚ :=
  if p < 2 then none
  else if xs.length < p then none
  else
    let w := xs.drop (xs.length - p)
    let m := w.sum / p
    some (sqrtQ ((w.map (fun x => (x - m) ^ 2)).sum / (p - 1 : ℕ)))

/-- Parameters of `MeanReversionStrategy.__init__` (defaults as in the
source). -/
structure MeanReversionParams where
  bb_period : ℕ := 20
  bb_std : ℚ := 2
  rsi_period : ℕ := 14
  oversold_threshold : ℚ := 30
  overbought_threshold : ℚ := 70
deriving Repr

/-- Embedding of `MeanReversionStrategy.generate_signal`, translated from
mean_reversion_strategy.py lines 82-192.  The strategy reads only the close
column.  `none` covers both the source's `return None` branches (NaN
indicators, zero band width) and the empty-frame case (where `iloc[-1]`
would raise before any indicator is read; the engine never calls it on an
empty frame). -/
def meanReversionSignal (sqrtQ : ℚ → ℚ) (ps : MeanReversionParams)
    (closes : List ℚ) : Option Signal :=
  match closes.getLast? with
  | none => none
  | some current_price =>
    match rsiLast ps.rsi_period closes, rollingMeanLast ps.bb_period closes,
        rollingStdLast sqrtQ ps.bb_period closes with
    | some current_rsi, some bb_middle, some sd =>
        let bb_upper := bb_middle + sd * ps.bb_std
        let bb_lower := bb_middle - sd * ps.bb_std
        let bb_width := bb_upper - bb_lower
        if bb_width = 0 then none
        else
          let price_position := (current_price - bb_lower) / bb_width
          if price_position ≤ 1/10 ∧ current_rsi < ps.oversold_threshold then
            let band_factor := max 0 (1 - price_position / (1/10))
            let rsi_factor := 1 - current_rsi / ps.oversold_threshold
            some { signal_type := .buy,
                   confidence :=
                     min (1/2 + band_factor * (3/10) + rsi_factor * (1/5)) 1,
                   entry_price := current_price,
                   stop_loss := some (bb_lower * (99/100)),
                   take_profit := some bb_middle }
          else if price_position ≥ 9/10 ∧
              current_rsi > ps.overbought_threshold then
            let band_factor := (price_position - 9/10) / (1/10)
            let rsi_factor := (current_rsi - ps.overbought_threshold) /
              (100 - ps.overbought_threshold)
            some { signal_type := .sell,
                   confidence :=
                     min (1/2 + band_factor * (3/10) + rsi_factor * (1/5)) 1,
                   entry_price := current_price,
                   stop_loss := some (bb_upper * (101/100)),
                   take_profit := some bb_middle }
          else
            some { signal_type := .hold, confidence := 0,
                   entry_price := current_price }
    | _, _, _ => none

/-- C6 (amended): whenever all indicator values of the mean-reversion
strategy are defined and the computed upper band equals the lower band, the
division by the band width is never reached: `generate_signal` fails closed
and returns `None` (no signal) — not a `HOLD` signal. -/
theorem meanReversionSignal_zero_width (sqrtQ : ℚ → ℚ)
    (ps : MeanReversionParams) (closes : List ℚ) (price rsi m sd : ℚ)
    (hlast : closes.getLast? = some price)
    (hrsi : rsiLast ps.rsi_period closes = some rsi)
    (hm : rollingMeanLast ps.bb_period closes = some m)
    (hsd : rollingStdLast sqrtQ ps.bb_period closes = some sd)
    (heq : m + sd * ps.bb_std = m - sd * ps.bb_std) :
    meanReversionSignal sqrtQ ps closes = none := by
  unfold meanReversionSignal
  rw [hlast, hrsi, hm, hsd]
  have hw : (m + sd * ps.bb_std) - (m - sd * ps.bb_std) = 0 := by
    rw [heq]; ring
  simp only [hw, eq_self_iff_true, if_true]

/-- Concrete closes for the C6 counterexample: the last two closes are
equal (zero Bollinger width for period 2) while earlier moves keep the RSI
defined. -/
def mrZeroWidthCloses : List ℚ := [1, 2, 5, 5]

/-- Parameters for the C6 counterexample: BB period 2, RSI period 2. -/
def mrZeroWidthParams : MeanReversionParams :=
  { bb_period := 2, bb_std := 2, rsi_period := 2 }

/-- C6 counterexample: on `[1, 2, 5, 5]` with BB/RSI period 2, every
indicator is defined (RSI 100, middle band 5, std 0), the upper band equals
the lower band, and `generate_signal` returns `None` — not a `HOLD` signal
as claimed. -/
theorem meanReversionSignal_zero_width_counterexample :
    rsiLast 2 mrZeroWidthCloses = some 100 ∧
      rollingMeanLast 2 mrZeroWidthCloses = some 5 ∧
      rollingStdLast id 2 mrZeroWidthCloses = some 0 ∧
      (5 : ℚ) + 0 * mrZeroWidthParams.bb_std =
        (5 : ℚ) - 0 * mrZeroWidthParams.bb_std ∧
      meanReversionSignal id mrZeroWidthParams mrZeroWidthCloses = none ∧
      (meanReversionSignal id mrZeroWidthParams mrZeroWidthCloses).isSome
        = false := by
  have h1 : rsiLast 2 mrZeroWidthCloses = some 100 := by
    norm_num [rsiLast, avgGainLast, avgLossLast, rollingMeanLast, gains,
      losses, diffs, mrZeroWidthCloses]
  have h2 : rollingMeanLast 2 mrZeroWidthCloses = some 5 := by
    norm_num [rollingMeanLast, mrZeroWidthCloses]
  have h3 : rollingStdLast id 2 mrZeroWidthCloses = some 0 := by
    norm_num [rollingStdLast, mrZeroWidthCloses]
  have h5 : meanReversionSignal id mrZeroWidthParams mrZeroWidthCloses
      = none := by
    unfold meanReversionSignal
    rw [show mrZeroWidthCloses.getLast? = some 5 from rfl]
    rw [show mrZeroWidthParams.rsi_period = 2 from rfl,
        show mrZeroWidthParams.bb_period = 2 from rfl, h1, h2, h3]
    norm_num
  exact ⟨h1, h2, h3, by norm_num, h5, by rw [h5]; rfl⟩

/-- C6 witness: the amended theorem applied to the concrete zero-width
input. -/
theorem meanReversionSignal_zero_width_witness :
    rollingStdLast id mrZeroWidthParams.bb_period mrZeroWidthCloses = some 0 ∧
      meanReversionSignal id mrZeroWidthParams mrZeroWidthCloses = none := by
  have h3 : rollingStdLast id mrZeroWidthParams.bb_period mrZeroWidthCloses
      = some 0 := by
    norm_num [rollingStdLast, mrZeroWidthCloses, mrZeroWidthParams]
  have h1 : rsiLast mrZeroWidthParams.rsi_period mrZeroWidthCloses
      = some 100 := by
    norm_num [rsiLast, avgGainLast, avgLossLast, rollingMeanLast, gains,
      losses, diffs, mrZeroWidthCloses, mrZeroWidthParams]
  have h2 : rollingMeanLast mrZeroWidthParams.bb_period mrZeroWidthCloses
      = some 5 := by
    norm_num [rollingMeanLast, mrZeroWidthCloses, mrZeroWidthParams]
  exact ⟨h3, meanReversionSignal_zero_width id mrZeroWidthParams
    mrZeroWidthCloses 5 100 5 0 rfl h1 h2 h3 (by ring)⟩

/-! ## Strategy combiner (`strategies/strategy_manager.py`)

`get_all_signals` produces a name-keyed dict of per-strategy outcomes
(`None` on error); everything from there on is a pure function of that
dict, modelled as an association list in iteration order. -/

/-- The dict comprehension of `get_combined_signal` lines 109-112: drop
`None` entries and `HOLD` signals. -/
def actionableSignals (all_signals : List (String × Option Signal)) :
    List (String × Signal) :=
  all_signals.filterMap (fun p =>
    match p.2 with
    | some s =>
        if s.signal_type ≠ SignalType.hold then some (p.1, s) else none
    | none => none)

/-- Embedding of `StrategyManager._average_signals`: averages confidence and entry price
over all signals, stop/target over the signals that carry one.  `none`
models the `ValueError` raised on an empty list. -/
def averageSignals (signals : List Signal) (signal_type : String) :
    Option Signal :=
  if signals = [] then none
  else
    let n : ℚ := signals.length
    let stop_losses := signals.filterMap Signal.stop_loss
    let take_profits := signals.filterMap Signal.take_profit
    some
      { signal_type := if signal_type = "buy" then .buy else .sell,
        confidence := (signals.map Signal.confidence).sum / n,
        entry_price := (signals.map Signal.entry_price).sum / n,
        stop_loss :=
          if stop_losses = [] then none
          else some (stop_losses.sum / stop_losses.length),
        take_profit :=
          if take_profits = [] then none
          else some (take_profits.sum / take_profits.length) }

/-- Embedding of `StrategyManager._consensus_signal`: count BUY/SELL signals above the
confidence threshold; a direction needs strictly more than half of the
actionable signals; the winners are averaged. -/
def consensusSignal (signals : List (String × Signal))
    (min_confidence : ℚ) : Option Signal :=
  if signals = [] then none
  else
    let vals := signals.map Prod.snd
    let buys := vals.filter (fun s =>
      s.signal_type = SignalType.buy ∧ min_confidence ≤ s.confidence)
    let sells := vals.filter (fun s =>
      s.signal_type = SignalType.sell ∧ min_confidence ≤ s.confidence)
    let total : ℚ := signals.length
    if (buys.length : ℚ) > total / 2 then averageSignals buys "buy"
    else if (sells.length : ℚ) > total / 2 then averageSignals sells "sell"
    else none

/-- Embedding of `StrategyManager._majority_signal` (implemented identically to
consensus, per the source comment "more lenient" notwithstanding). -/
def majoritySignal (signals : List (String × Signal))
    (min_confidence : ℚ) : Option Signal :=
  if signals = [] then none
  else
    let vals := signals.map Prod.snd
    let buys := vals.filter (fun s =>
      s.signal_type = SignalType.buy ∧ min_confidence ≤ s.confidence)
    let sells := vals.filter (fun s =>
      s.signal_type = SignalType.sell ∧ min_confidence ≤ s.confidence)
    let threshold : ℚ := (signals.length : ℚ) / 2
    if (buys.length : ℚ) > threshold then averageSignals buys "buy"
    else if (sells.length : ℚ) > threshold then averageSignals sells "sell"
    else none

/-- Embedding of `StrategyManager._weighted_signal`: confidence-weighted direction vote;
requires the weights to differ by at least 0.3. -/
def weightedSignal (signals : List (String × Signal))
    (min_confidence : ℚ) : Option Signal :=
  if signals = [] then none
  else
    let vals := signals.map Prod.snd
    let buys := vals.filter (fun s =>
      s.signal_type = SignalType.buy ∧ min_confidence ≤ s.confidence)
    let sells := vals.filter (fun s =>
      s.signal_type = SignalType.sell ∧ min_confidence ≤ s.confidence)
    let buy_weight := (buys.map Signal.confidence).sum
    let sell_weight := (sells.map Signal.confidence).sum
    if |buy_weight - sell_weight| < 3/10 then none
    else if buy_weight > sell_weight then averageSignals buys "buy"
    else averageSignals sells "sell"

/-- Python `max(signals, key=confidence)`: first signal attaining the
maximal confidence. -/
def maxByConfidence (signals : List Signal) : Option Signal :=
  signals.foldl
    (fun best s =>
      match best with
      | none => some s
      | some b => if s.confidence > b.confidence then some s else best)
    none

/-- Embedding of `StrategyManager._any_signal`: highest-confidence signal above the
threshold. -/
def anySignal (signals : List (String × Signal))
    (min_confidence : ℚ) : Option Signal :=
  maxByConfidence ((signals.map Prod.snd).filter
    (fun s => min_confidence ≤ s.confidence))

/-- Embedding of `StrategyManager._first_match_signal`: first signal above the
threshold, in registration order. -/
def firstMatchSignal (signals : List (String × Signal))
    (min_confidence : ℚ) : Option Signal :=
  (signals.map Prod.snd).find? (fun s => min_confidence ≤ s.confidence)

/-- Embedding of `StrategyManager._highest_confidence_signal` (same computation as
`_any_signal`). -/
def highestConfidenceSignal (signals : List (String × Signal))
    (min_confidence : ℚ) : Option Signal :=
  maxByConfidence ((signals.map Prod.snd).filter
    (fun s => min_confidence ≤ s.confidence))

/-- Embedding of `StrategyManager.get_combined_signal` from the per-strategy outcome
dict onward: filter actionable signals, return `None` when there are none,
then dispatch on the configured combination method (unknown methods return
`None`). -/
def getCombinedSignal (combination_method : String)
    (all_signals : List (String × Option Signal))
    (min_confidence : ℚ) : Option Signal :=
  let actionable := actionableSignals all_signals
  if actionable = [] then none
  else if combination_method = "consensus" then
    consensusSignal actionable min_confidence
  else if combination_method = "majority" then
    majoritySignal actionable min_confidence
  else if combination_method = "weighted" then
    weightedSignal actionable min_confidence
  else if combination_method = "any" then
    anySignal actionable min_confidence
  else if combination_method = "first_match" then
    firstMatchSignal actionable min_confidence
  else if combination_method = "highest_confidence" then
    highestConfidenceSignal actionable min_confidence
  else none

/-- C7: with three registered strategies of which exactly two return BUY
signals at confidence ≥ the threshold (in any arrangement) and one returns
HOLD, the consensus combiner returns a BUY signal averaging the two
agreeing signals' confidence, entry price, stop and target; and whenever no
actionable signal exists at all, the combiner returns `None` for every
combination method. -/
theorem consensus_two_buys_one_hold (n1 n2 n3 : String)
    (c1 e1 v1 w1 c2 e2 v2 w2 minConf : ℚ) (sh : Signal)
    (hhold : sh.signal_type = SignalType.hold)
    (hc1 : minConf ≤ c1) (hc2 : minConf ≤ c2)
    (all : List (String × Option Signal))
    (harr :
      all = [(n1, some { signal_type := .buy, confidence := c1,
                         entry_price := e1, stop_loss := some v1,
                         take_profit := some w1 }),
             (n2, some { signal_type := .buy, confidence := c2,
                         entry_price := e2, stop_loss := some v2,
                         take_profit := some w2 }),
             (n3, some sh)] ∨
      all = [(n1, some { signal_type := .buy, confidence := c1,
                         entry_price := e1, stop_loss := some v1,
                         take_profit := some w1 }),
             (n3, some sh),
             (n2, some { signal_type := .buy, confidence := c2,
                         entry_price := e2, stop_loss := some v2,
                         take_profit := some w2 })] ∨
      all = [(n3, some sh),
             (n1, some { signal_type := .buy, confidence := c1,
                         entry_price := e1, stop_loss := some v1,
                         take_profit := some w1 }),
             (n2, some { signal_type := .buy, confidence := c2,
                         entry_price := e2, stop_loss := some v2,
                         take_profit := some w2 })]) :
    getCombinedSignal "consensus" all minConf =
      some { signal_type := .buy, confidence := (c1 + c2) / 2,
             entry_price := (e1 + e2) / 2, stop_loss := some ((v1 + v2) / 2),
             take_profit := some ((w1 + w2) / 2) } ∧
    (∀ (method : String) (l : List (String × Option Signal)) (mc : ℚ),
      actionableSignals l = [] → getCombinedSignal method l mc = none) := by
  constructor
  · rcases harr with h | h | h <;> subst h <;>
      simp [getCombinedSignal, actionableSignals, consensusSignal,
        averageSignals, hhold, hc1, hc2]
  · intro method l mc hempty
    simp only [getCombinedSignal, hempty, eq_self_iff_true, if_true]

/-- C7 witness: two BUY signals at confidence 0.8/0.6 (threshold 0.6) and a
HOLD; the combined BUY signal averages entry 100 and 110 to 105. -/
theorem consensus_two_buys_one_hold_witness :
    ({ signal_type := .hold, confidence := 0, entry_price := 100 :
        Signal }).signal_type = SignalType.hold ∧
    (6/10 : ℚ) ≤ 8/10 ∧ (6/10 : ℚ) ≤ 6/10 ∧
    getCombinedSignal "consensus"
      [("momentum", some { signal_type := .buy, confidence := 8/10,
                           entry_price := 100, stop_loss := some 98,
                           take_profit := some 104 }),
       ("meanrev", some { signal_type := .buy, confidence := 6/10,
                          entry_price := 110, stop_loss := some 108,
                          take_profit := some 114 }),
       ("third", some { signal_type := .hold, confidence := 0,
                        entry_price := 100 })] (6/10) =
      some { signal_type := .buy, confidence := 7/10, entry_price := 105,
             stop_loss := some 103, take_profit := some 109 } := by
  refine ⟨rfl, by norm_num, le_refl _, ?_⟩
  have h := (consensus_two_buys_one_hold "momentum" "meanrev" "third"
    (8/10) 100 98 104 (6/10) 110 108 114 (6/10)
    { signal_type := .hold, confidence := 0, entry_price := 100 }
    rfl (by norm_num) (le_refl _) _ (Or.inl rfl)).1
  rw [h]
  norm_num

/-! ## Multi-symbol orchestration engine
(`apps/executor/multi_symbol_engine.py`)

`_execute_trade` is embedded as a function from its collaborator responses
and the engine state to the new state plus the ordered trace of risk/
execution calls it makes.  The trace votes `validateVolatility` and
`canOpenPosition` exist so that their absence from every reachable trace is
expressible; `_execute_trade` constructs neither. -/

/-- The dict value stored in `self.open_positions[symbol]` on execution
(multi_symbol_engine.py lines 517-525). -/
structure TrackedPosition where
  side : SignalType
  entry_price : ℚ
  quantity : ℚ
  stop_loss : ℚ
  take_profit : ℚ
  order_id : String
  timestamp : ℤ
deriving DecidableEq, Repr

/-- One risk/collaborator call made during `_execute_trade`, in program
order. -/
inductive EngAction
  | getTicker
  | getBalance
  | calcStopLoss
  | calcSafeSize
  | validateVolatility
  | canOpenPosition
  | placeOrder
deriving DecidableEq, Repr

/-- The environment one `_execute_trade` call runs in: collaborator
responses and the configuration it reads. -/
structure TradeEnv where
  ticker : Option ℚ
  balance : ℚ
  candles : List Bar
  maxPositionUsd : ℚ := 1000
  tpRR : ℚ := 3
  dryRun : Bool := false
  orderId : Option String := none
  cfg : RiskConfig := {}
  currentDailyLoss : ℚ := 0
  now : ℤ := 0
deriving Repr

/-- The engine state `_execute_trade`/`close_position` mutate: the
`open_positions` dict and the P&L log (entries abstracted to their
symbols). -/
structure EngineState where
  openPositions : List (String × TrackedPosition) := []
  pnlEntries : List String := []
  pnlExits : List String := []
deriving DecidableEq, Repr

/-- Embedding of `MultiSymbolEngine._execute_trade` (lines 392-547), step for step:
duplicate-position check → ticker fetch → balance check → ATR stop loss →
`calculate_safe_size` (win_rate 0.55, reward_ratio 2) → per-symbol
position-value cap → dry-run gate → `place_order`; on success the position
is tracked and the entry logged.  Every early `return` leaves the state
unchanged. -/
def executeTrade (symbol : String) (signal : Signal) (env : TradeEnv)
    (st : EngineState) : EngineState × List EngAction :=
  match dictGet symbol st.openPositions with
  | some _existing => (st, [])
  | none =>
    match env.ticker with
    | none => (st, [.getTicker])
    | some current_price =>
      if env.balance ≤ 0 then (st, [.getTicker, .getBalance])
      else
        let side :=
          if signal.signal_type = SignalType.buy then "long" else "short"
        let stop_loss := calculate_dynamic_stop_loss env.candles
          current_price env.cfg.default_atr_period
          env.cfg.default_atr_multiplier side
        let quantity := calculate_safe_size env.cfg env.currentDailyLoss
          env.balance current_price stop_loss (11/20) 2
        if quantity ≤ 0 then
          (st, [.getTicker, .getBalance, .calcStopLoss, .calcSafeSize])
        else
          let quantity :=
            if quantity * current_price > env.maxPositionUsd then
              env.maxPositionUsd / current_price
            else quantity
          if env.dryRun then
            (st, [.getTicker, .getBalance, .calcStopLoss, .calcSafeSize])
          else
            match env.orderId with
            | some oid =>
                let distance_to_sl := |current_price - stop_loss|
                let take_profit :=
                  if signal.signal_type = SignalType.buy then
                    current_price + distance_to_sl * env.tpRR
                  else current_price - distance_to_sl * env.tpRR
                ({ st with
                    openPositions := dictInsert symbol
                      { side := signal.signal_type,
                        entry_price := current_price,
                        quantity := quantity, stop_loss := stop_loss,
                        take_profit := take_profit, order_id := oid,
                        timestamp := env.now } st.openPositions,
                    pnlEntries := st.pnlEntries ++ [symbol] },
                 [.getTicker, .getBalance, .calcStopLoss, .calcSafeSize,
                  .placeOrder])
            | none =>
                (st, [.getTicker, .getBalance, .calcStopLoss, .calcSafeSize,
                      .placeOrder])

/-- Environment of one `MultiSymbolEngine.close_position` call. -/
structure CloseEnv where
  dryRun : Bool := false
  orderId : Option String := none
deriving Repr

/-- Embedding of `MultiSymbolEngine.close_position` (lines 601-693): no position →
no-op; dry run → delete from tracking; live → closing order, and only on a
truthy result log the exit and delete the entry. -/
def engineClosePosition (symbol : String) (env : CloseEnv)
    (st : EngineState) : EngineState :=
  match dictGet symbol st.openPositions with
  | none => st
  | some _pos =>
      if env.dryRun then
        { st with openPositions := dictRemove symbol st.openPositions }
      else
        match env.orderId with
        | some _ =>
            { st with openPositions := dictRemove symbol st.openPositions,
                      pnlExits := st.pnlExits ++ [symbol] }
        | none => st

/-- One engine-level event: a tick-driven trade attempt or a monitor-loop
close. -/
inductive EngEvent
  | execTrade (symbol : String) (signal : Signal) (env : TradeEnv)
  | closePos (symbol : String) (env : CloseEnv)

/-- Apply one engine event to the state. -/
def engineStep (st : EngineState) : EngEvent → EngineState
  | .execTrade symbol signal env => (executeTrade symbol signal env st).1
  | .closePos symbol env => engineClosePosition symbol env st

/-- Run the engine from the initial (empty) state over a sequence of
tick/close events. -/
def runEngine (events : List EngEvent) : EngineState :=
  events.foldl engineStep {}

theorem engineStep_nodup (st : EngineState) (e : EngEvent)
    (h : (keysOf st.openPositions).Nodup) :
    (keysOf (engineStep st e).openPositions).Nodup := by
  cases e with
  | execTrade symbol signal env =>
      show (keysOf (executeTrade symbol signal env st).1.openPositions).Nodup
      unfold executeTrade
      dsimp only
      repeat' split
      all_goals
        first
          | exact h
          | exact keysOf_dictInsert _ _ _ h
  | closePos symbol env =>
      show (keysOf (engineClosePosition symbol env st).openPositions).Nodup
      unfold engineClosePosition
      repeat' split
      all_goals
        first
          | exact h
          | exact keysOf_dictRemove _ _ h

theorem runEngine_from_nodup (events : List EngEvent) (st : EngineState)
    (h : (keysOf st.openPositions).Nodup) :
    (keysOf (events.foldl engineStep st).openPositions).Nodup := by
  induction events generalizing st with
  | nil => simpa using h
  | cons e t ih => exact ih _ (engineStep_nodup st e h)

/-- C3: over every sequence of trade/close events from the initial state,
the engine's `open_positions` dict holds at most one position per symbol
(its key list has no duplicates); and when a symbol already has an entry,
`_execute_trade` on a new signal for it returns immediately — no order is
placed (empty call trace), and the whole state, in particular that symbol's
position, is unchanged. -/
theorem at_most_one_position_per_symbol :
    (∀ events : List EngEvent,
      (keysOf (runEngine events).openPositions).Nodup) ∧
    (∀ (symbol : String) (signal : Signal) (env : TradeEnv)
        (st : EngineState),
      (dictGet symbol st.openPositions).isSome = true →
      executeTrade symbol signal env st = (st, [])) := by
  constructor
  · intro events
    exact runEngine_from_nodup events {} (by simp [keysOf])
  · intro symbol signal env st hsym
    unfold executeTrade
    cases hdg : dictGet symbol st.openPositions with
    | none => rw [hdg] at hsym; simp at hsym
    | some pos => rfl

/-- Concrete open position for the C3 witness. -/
def c3Position : TrackedPosition :=
  { side := .buy, entry_price := 100, quantity := 1, stop_loss := 95,
    take_profit := 115, order_id := "1", timestamp := 0 }

/-- Engine state that already holds a BTC/USDT position (C3 witness). -/
def c3StateOpen : EngineState :=
  { openPositions := [("BTC/USDT", c3Position)] }

/-- Signal arriving while the position is open (C3 witness). -/
def c3Signal : Signal :=
  { signal_type := .buy, confidence := 9/10, entry_price := 100 }

/-- Collaborator environment for the C3 witness. -/
def c3TradeEnv : TradeEnv :=
  { ticker := some 100, balance := 1000, candles := [],
    orderId := some "2" }

/-- C3 witness: the invariant instantiated on a concrete event list, and
the skip behaviour instantiated on a state with an open BTC/USDT position
(hypothesis discharged by evaluation). -/
theorem at_most_one_position_per_symbol_witness :
    (keysOf ((runEngine
        [EngEvent.execTrade "BTC/USDT" c3Signal c3TradeEnv,
         EngEvent.closePos "BTC/USDT" { orderId := some "3" }]).openPositions)).Nodup ∧
    executeTrade "BTC/USDT" c3Signal c3TradeEnv c3StateOpen =
      (c3StateOpen, []) :=
  ⟨at_most_one_position_per_symbol.1 _,
   at_most_one_position_per_symbol.2 "BTC/USDT" c3Signal c3TradeEnv
     c3StateOpen (by simp [c3StateOpen, dictGet])⟩

/-- C2 (amended): on every input, `_execute_trade` never invokes the
volatility gate nor the portfolio approval; every path that reaches
`place_order` has first run, in this fixed order: ticker fetch, balance
check, ATR stop-loss computation, position sizing (which contains the
daily-drawdown circuit breaker); and every path that does not reach
`place_order` leaves the engine state unchanged (the rejection is only
logged). -/
theorem executeTrade_pipeline (symbol : String) (signal : Signal)
    (env : TradeEnv) (st : EngineState) :
    EngAction.validateVolatility ∉ (executeTrade symbol signal env st).2 ∧
    EngAction.canOpenPosition ∉ (executeTrade symbol signal env st).2 ∧
    (EngAction.placeOrder ∈ (executeTrade symbol signal env st).2 →
      (executeTrade symbol signal env st).2 =
        [.getTicker, .getBalance, .calcStopLoss, .calcSafeSize,
         .placeOrder]) ∧
    (EngAction.placeOrder ∉ (executeTrade symbol signal env st).2 →
      (executeTrade symbol signal env st).1 = st) := by
  unfold executeTrade
  dsimp only
  repeat' split
  all_goals simp

/-- Collaborator environment for the C2 counterexample trade. -/
def c2TradeEnv : TradeEnv :=
  { ticker := some 100, balance := 1000, candles := [],
    orderId := some "7" }

/-- Signal for the C2 counterexample trade. -/
def c2Signal : Signal :=
  { signal_type := .buy, confidence := 9/10, entry_price := 100 }

/-- C2 counterexample: a concrete trade (price 100, balance 1000, empty
candle frame so the stop falls back to 95, sizing yields quantity 4) whose
trace reaches `place_order` while `validate_volatility` and
`can_open_position` are never invoked — refuting the claimed
volatility-gate → … → portfolio-approval pipeline. -/
theorem executeTrade_no_gates_counterexample :
    (executeTrade "BTC/USDT" c2Signal c2TradeEnv {}).2 =
      [.getTicker, .getBalance, .calcStopLoss, .calcSafeSize,
       .placeOrder] ∧
    EngAction.placeOrder ∈ (executeTrade "BTC/USDT" c2Signal c2TradeEnv {}).2 ∧
    EngAction.validateVolatility ∉
      (executeTrade "BTC/USDT" c2Signal c2TradeEnv {}).2 ∧
    EngAction.canOpenPosition ∉
      (executeTrade "BTC/USDT" c2Signal c2TradeEnv {}).2 := by
  have h : (executeTrade "BTC/USDT" c2Signal c2TradeEnv {}).2 =
      [.getTicker, .getBalance, .calcStopLoss, .calcSafeSize,
       .placeOrder] := by
    norm_num [executeTrade, dictGet, c2TradeEnv, c2Signal,
      calculate_dynamic_stop_loss, calculate_safe_size, RiskConfig]
  refine ⟨h, ?_, ?_, ?_⟩ <;> rw [h] <;> simp

/-- C2 witness: the amended pipeline theorem applied to the concrete
order-placing trade of the counterexample environment. -/
theorem executeTrade_pipeline_witness :
    EngAction.validateVolatility ∉
      (executeTrade "BTC/USDT" c2Signal c2TradeEnv {}).2 ∧
    (executeTrade "BTC/USDT" c2Signal c2TradeEnv {}).2 =
      [.getTicker, .getBalance, .calcStopLoss, .calcSafeSize,
       .placeOrder] := by
  have h := executeTrade_pipeline "BTC/USDT" c2Signal c2TradeEnv {}
  refine ⟨h.1, h.2.2.1 ?_⟩
  have heval : (executeTrade "BTC/USDT" c2Signal c2TradeEnv {}).2 =
      [.getTicker, .getBalance, .calcStopLoss, .calcSafeSize,
       .placeOrder] := by
    norm_num [executeTrade, dictGet, c2TradeEnv, c2Signal,
      calculate_dynamic_stop_loss, calculate_safe_size, RiskConfig]
  rw [heval]
  simp

/-! ## Account manager (`apps/executor/account_manager.py`) -/

/-- Wall-clock time as the account manager consumes it: the calendar day
(`date.today()`) and an absolute second count (for durations). -/
structure PyTime where
  day : ℤ
  sec : ℚ
deriving DecidableEq, Repr

/-- The `PositionSide` enum. -/
inductive PositionSide
  | long
  | short
deriving DecidableEq, Repr

/-- The `Position` dataclass of account_manager.py. -/
structure AMPosition where
  symbol : String
  side : PositionSide
  entry_price : ℚ
  size : ℚ
  entry_time : PyTime
  stop_loss : Option ℚ := none
  take_profit : Option ℚ := none
  unrealized_pnl : ℚ := 0
deriving DecidableEq, Repr

/-- The `ClosedTrade` dataclass (account_manager.py lines 60-90). -/
structure ClosedTrade where
  symbol : String
  side : PositionSide
  entry_price : ℚ
  exit_price : ℚ
  size : ℚ
  realized_pnl : ℚ
  entry_time : PyTime
  exit_time : PyTime
  duration_seconds : ℚ
deriving DecidableEq, Repr

/-- The methods the `ClosedTrade` class body defines: `was_winner` and
`to_dict` only — in particular not `get_roi` (that method lives on
`Position`). -/
def closedTradeMethods : List String := ["was_winner", "to_dict"]

/-- Embedding of `str.lower()` over the character data (the embedding of the Python
call in `open_position`). -/
def pyLower (s : String) : String :=
  ⟨s.data.map Char.toLower⟩

/-- Python attribute lookup on a `ClosedTrade` value: `AttributeError` for
any name outside the class body. -/
def closedTradeGetAttr (name : String) : Except String Unit :=
  if name ∈ closedTradeMethods then .ok ()
  else .error ("AttributeError: ClosedTrade object has no attribute "
    ++ name)

/-- The mutable state of `AccountManager`. -/
structure AMState where
  initial_balance : ℚ := 10000
  current_balance : ℚ := 10000
  open_positions : List (String × AMPosition) := []
  closed_trades : List ClosedTrade := []
  today : ℤ := 0
  daily_pnl : ℚ := 0
  daily_trades : ℕ := 0
  total_trades : ℕ := 0
  winning_trades : ℕ := 0
  losing_trades : ℕ := 0
  total_profit : ℚ := 0
  total_loss : ℚ := 0
deriving DecidableEq, Repr

/-- Embedding of `AccountManager.__init__(initial_balance)`, constructed on calendar day
`d0`. -/
def amInit (initial_balance : ℚ) (d0 : ℤ) : AMState :=
  { initial_balance := initial_balance,
    current_balance := initial_balance, today := d0 }

/-- Embedding of `AccountManager.reset_daily_metrics`, with `date.today()` passed in:
the daily accumulators reset only when the stored day differs. -/
def reset_daily_metrics (st : AMState) (today : ℤ) : AMState :=
  if today ≠ st.today then
    { st with today := today, daily_pnl := 0, daily_trades := 0 }
  else st

/-- The realized P&L computed by `close_position` (lines 215-218). -/
def amRealizedPnl (position : AMPosition) (exit_price : ℚ) : ℚ :=
  match position.side with
  | .long => (exit_price - position.entry_price) * position.size
  | .short => (position.entry_price - exit_price) * position.size

/-- Embedding of `AccountManager.close_position(symbol, exit_price)` at time `now`:
missing position → `None`; otherwise the trade record is appended, balance,
daily P&L, daily/total trade counts and win/loss statistics are updated and
the position entry is deleted — and then the final log line evaluates
`closed_trade.get_roi()`, which `ClosedTrade` does not define, so an
`AttributeError` escapes *after* all those mutations.  Note that
`reset_daily_metrics` is never called here. -/
def amClosePosition (st : AMState) (symbol : String) (exit_price : ℚ)
    (now : PyTime) : AMState × Except String (Option ClosedTrade) :=
  match dictGet symbol st.open_positions with
  | none => (st, .ok none)
  | some position =>
      let realized_pnl := amRealizedPnl position exit_price
      let closed_trade : ClosedTrade :=
        { symbol := symbol, side := position.side,
          entry_price := position.entry_price, exit_price := exit_price,
          size := position.size, realized_pnl := realized_pnl,
          entry_time := position.entry_time, exit_time := now,
          duration_seconds := now.sec - position.entry_time.sec }
      let st1 :=
        { st with
            closed_trades := st.closed_trades ++ [closed_trade],
            current_balance := st.current_balance + realized_pnl,
            daily_pnl := st.daily_pnl + realized_pnl,
            daily_trades := st.daily_trades + 1,
            total_trades := st.total_trades + 1,
            winning_trades :=
              if realized_pnl > 0 then st.winning_trades + 1
              else st.winning_trades,
            losing_trades :=
              if realized_pnl > 0 then st.losing_trades
              else st.losing_trades + 1,
            total_profit :=
              if realized_pnl > 0 then st.total_profit + realized_pnl
              else st.total_profit,
            total_loss :=
              if realized_pnl > 0 then st.total_loss
              else st.total_loss + |realized_pnl|,
            open_positions := dictRemove symbol st.open_positions }
      match closedTradeGetAttr "get_roi" with
      | .ok _ => (st1, .ok (some closed_trade))
      | .error e => (st1, .error e)

/-- Embedding of `AccountManager.open_position`: an existing position for the symbol is
closed first (at the new entry price); the `AttributeError` escaping from
that close aborts the open before the new position is created.  Otherwise
the `Position` is built and stored. -/
def amOpenPosition (st : AMState) (symbol side : String)
    (entry_price size : ℚ) (stop_loss take_profit : Option ℚ)
    (now : PyTime) : AMState × Except String AMPosition :=
  let build : AMState → AMState × Except String AMPosition := fun st0 =>
    let position_side :=
      if pyLower side = "long" then PositionSide.long else PositionSide.short
    let position : AMPosition :=
      { symbol := symbol, side := position_side,
        entry_price := entry_price, size := size, entry_time := now,
        stop_loss := stop_loss, take_profit := take_profit }
    ({ st0 with open_positions :=
        dictInsert symbol position st0.open_positions }, .ok position)
  if (dictGet symbol st.open_positions).isSome then
    match amClosePosition st symbol entry_price now with
    | (st1, .error e) => (st1, .error e)
    | (st1, .ok _) => build st1
  else build st

/-- Embedding of `AccountManager.get_daily_pnl`: the lazy daily reset, then the read. -/
def amGetDailyPnl (st : AMState) (today : ℤ) : AMState × ℚ :=
  let st1 := reset_daily_metrics st today
  (st1, st1.daily_pnl)

/-- Embedding of `AccountManager.get_stats` as it affects state: it begins with
`reset_daily_metrics`; the returned statistics dict is a pure read of the
state (no further mutation) and is elided. -/
def amGetStats (st : AMState) (today : ℤ) : AMState :=
  reset_daily_metrics st today

/-- One account-manager call.  The engine wraps these calls in try/except,
so an escaping `AttributeError` leaves the already-mutated state in place
and the sequence continues. -/
inductive AMEvent
  | openPos (symbol side : String) (entry size : ℚ) (now : PyTime)
  | closePos (symbol : String) (exit_price : ℚ) (now : PyTime)
  | queryDailyPnl (now : PyTime)
  | queryStats (now : PyTime)

/-- Apply one account-manager call to the state. -/
def amStep (st : AMState) : AMEvent → AMState
  | .openPos symbol side entry size now =>
      (amOpenPosition st symbol side entry size none none now).1
  | .closePos symbol exit_price now =>
      (amClosePosition st symbol exit_price now).1
  | .queryDailyPnl now => (amGetDailyPnl st now.day).1
  | .queryStats now => amGetStats st now.day

/-- Run a sequence of account-manager calls. -/
def amRun (events : List AMEvent) (st : AMState) : AMState :=
  events.foldl amStep st

theorem dictGet_dictRemove {β : Type} (k : String)
    (l : List (String × β)) : dictGet k (dictRemove k l) = none := by
  induction l with
  | nil => rfl
  | cons p t ih =>
      by_cases hk : p.1 = k
      · simpa [dictRemove, hk] using ih
      · simpa [dictRemove, dictGet, hk] using ih

/-- C4 counterexample: a trade closed on day 0 for +10 and a second trade
closed on day 1 for +5, with no query call in between.  `close_position`
never resets the daily accumulator, so after the second close it holds 15 —
both days' P&L — instead of the 5 the claim requires. -/
theorem daily_pnl_rollover_counterexample :
    (amRun
      [AMEvent.openPos "BTC/USDT" "long" 100 1 ⟨0, 86390⟩,
       AMEvent.closePos "BTC/USDT" 110 ⟨0, 86399⟩,
       AMEvent.openPos "BTC/USDT" "long" 100 1 ⟨1, 86401⟩,
       AMEvent.closePos "BTC/USDT" 105 ⟨1, 86410⟩]
      (amInit 10000 0)).daily_pnl = 15 ∧ (15 : ℚ) ≠ 5 := by
  have hattr : closedTradeGetAttr "get_roi" =
      .error "AttributeError: ClosedTrade object has no attribute get_roi"
      := by
    simp [closedTradeGetAttr, closedTradeMethods]
  have hlow : pyLower "long" = "long" := by decide
  constructor
  · norm_num [amRun, amStep, amOpenPosition, amClosePosition, amInit,
      amRealizedPnl, reset_daily_metrics, dictGet, dictInsert, dictRemove,
      hattr, hlow, amGetDailyPnl, amGetStats]
  · norm_num

/-- C4 (amended): the daily reset is lazy — performed only by the query
methods (`get_daily_pnl`/`get_stats`), never by `close_position`.  After a
close on day `d1` followed by a `get_daily_pnl` call on day `d2 ≠ d1` and a
second trade closed on day `d2`, the accumulator equals the second trade's
P&L alone; without such an intervening query it equals the sum of both
trades' P&L (counterexample). -/
theorem daily_pnl_rollover_amended (balance e1 s1 x1 e2 s2 x2 : ℚ)
    (sym : String) (d1 d2 : ℤ) (ta tb tc td te : PyTime)
    (hne : d2 ≠ d1) (htc : tc.day = d2) :
    (amRun
      [AMEvent.openPos sym "long" e1 s1 ta,
       AMEvent.closePos sym x1 tb,
       AMEvent.queryDailyPnl tc,
       AMEvent.openPos sym "long" e2 s2 td,
       AMEvent.closePos sym x2 te]
      (amInit balance d1)).daily_pnl = (x2 - e2) * s2 := by
  have hattr : closedTradeGetAttr "get_roi" =
      .error "AttributeError: ClosedTrade object has no attribute get_roi"
      := by
    simp [closedTradeGetAttr, closedTradeMethods]
  have hlow : pyLower "long" = "long" := by decide
  simp [amRun, amStep, amOpenPosition, amClosePosition, amInit,
    amRealizedPnl, reset_daily_metrics, dictGet, dictInsert, dictRemove,
    hattr, hlow, amGetDailyPnl, htc, hne]

/-- C4 witness: the amended rollover behaviour on concrete trades — +10
realized on day 0, a `get_daily_pnl` call on day 1, then +5 realized on
day 1 leaves the accumulator at exactly 5. -/
theorem daily_pnl_rollover_amended_witness :
    (1 : ℤ) ≠ 0 ∧
    (amRun
      [AMEvent.openPos "BTC/USDT" "long" 100 1 ⟨0, 86390⟩,
       AMEvent.closePos "BTC/USDT" 110 ⟨0, 86399⟩,
       AMEvent.queryDailyPnl ⟨1, 86400⟩,
       AMEvent.openPos "BTC/USDT" "long" 100 1 ⟨1, 86401⟩,
       AMEvent.closePos "BTC/USDT" 105 ⟨1, 86410⟩]
      (amInit 10000 0)).daily_pnl = 5 := by
  refine ⟨by decide, ?_⟩
  have h := daily_pnl_rollover_amended 10000 100 1 110 100 1 105 "BTC/USDT"
    0 1 ⟨0, 86390⟩ ⟨0, 86399⟩ ⟨1, 86400⟩ ⟨1, 86401⟩ ⟨1, 86410⟩
    (by decide) rfl
  rw [h]
  norm_num

/-- C10: whenever the symbol has an open position, `close_position`
finishes in an `AttributeError` (the final log line calls
`closed_trade.get_roi()`, which `ClosedTrade` does not define) instead of
returning the `ClosedTrade` — and the raise happens only after the state
was already mutated: trade appended, balance and daily P&L updated, trade
counters and win/loss statistics advanced, and the position removed.  The
operation is not atomic on this error. -/
theorem amClosePosition_raises_after_mutation (st : AMState)
    (symbol : String) (exit_price : ℚ) (now : PyTime)
    (position : AMPosition)
    (hpos : dictGet symbol st.open_positions = some position) :
    (amClosePosition st symbol exit_price now).2 =
      .error "AttributeError: ClosedTrade object has no attribute get_roi" ∧
    (amClosePosition st symbol exit_price now).1.closed_trades =
      st.closed_trades ++
        [{ symbol := symbol, side := position.side,
           entry_price := position.entry_price, exit_price := exit_price,
           size := position.size,
           realized_pnl := amRealizedPnl position exit_price,
           entry_time := position.entry_time, exit_time := now,
           duration_seconds := now.sec - position.entry_time.sec }] ∧
    (amClosePosition st symbol exit_price now).1.current_balance =
      st.current_balance + amRealizedPnl position exit_price ∧
    (amClosePosition st symbol exit_price now).1.daily_pnl =
      st.daily_pnl + amRealizedPnl position exit_price ∧
    (amClosePosition st symbol exit_price now).1.daily_trades =
      st.daily_trades + 1 ∧
    (amClosePosition st symbol exit_price now).1.total_trades =
      st.total_trades + 1 ∧
    (amClosePosition st symbol exit_price now).1.winning_trades =
      (if amRealizedPnl position exit_price > 0 then st.winning_trades + 1
       else st.winning_trades) ∧
    (amClosePosition st symbol exit_price now).1.losing_trades =
      (if amRealizedPnl position exit_price > 0 then st.losing_trades
       else st.losing_trades + 1) ∧
    dictGet symbol
      (amClosePosition st symbol exit_price now).1.open_positions = none := by
  have hattr : closedTradeGetAttr "get_roi" =
      .error "AttributeError: ClosedTrade object has no attribute get_roi"
      := by
    simp [closedTradeGetAttr, closedTradeMethods]
  unfold amClosePosition
  rw [hpos]
  simp [hattr, dictGet_dictRemove]

/-- Open position used by the C10 witness. -/
def c10Position : AMPosition :=
  { symbol := "BTC/USDT", side := .long, entry_price := 100, size := 2,
    entry_time := ⟨0, 0⟩ }

/-- Account state holding the C10 witness position. -/
def c10State : AMState :=
  { amInit 10000 0 with open_positions := [("BTC/USDT", c10Position)] }

/-- C10 witness: closing the concrete open long at 110 raises the
`AttributeError` while the balance was already credited with +20 and the
position entry is gone. -/
theorem amClosePosition_raises_witness :
    dictGet "BTC/USDT" c10State.open_positions = some c10Position ∧
    (amClosePosition c10State "BTC/USDT" 110 ⟨0, 5⟩).2 =
      .error "AttributeError: ClosedTrade object has no attribute get_roi" ∧
    (amClosePosition c10State "BTC/USDT" 110 ⟨0, 5⟩).1.current_balance =
      10020 ∧
    dictGet "BTC/USDT"
      (amClosePosition c10State "BTC/USDT" 110 ⟨0, 5⟩).1.open_positions =
      none := by
  have hpos : dictGet "BTC/USDT" c10State.open_positions
      = some c10Position := by
    simp [c10State, dictGet]
  have h := amClosePosition_raises_after_mutation c10State "BTC/USDT" 110
    ⟨0, 5⟩ c10Position hpos
  refine ⟨hpos, h.1, ?_, h.2.2.2.2.2.2.2.2⟩
  rw [h.2.2.1]
  norm_num [c10State, c10Position, amInit, amRealizedPnl]

end TradingBot
